import Mathlib

/-!
# Verification of the task-tracking REST API (src/app.js)

Shallow embedding of the Express + Sequelize task API. The single source
file defines a `Task` model (UUID primary key, weekday-constrained title,
optional description, required date-only due date, boolean completed flag
with default `false`) and five routes: list, get-by-id, create, update,
delete. The embedding models:

* request bodies as records of optional fields (`none` = field absent from
  the JSON body; extra client-supplied fields `task_id`, `createdAt`,
  `updatedAt` are carried so that we can show the handlers ignore them);
* the store as a list of tasks plus a fresh-id counter. Sequelize's
  `UUIDV4` default together with the primary-key constraint guarantees a
  fresh identifier distinct from every stored row; the counter `nextId`
  embeds that freshness;
* stored task fields as optional values, so that the presence invariants
  (`title`/`due_date` never absent on a stored row) are facts to prove,
  not artifacts of the typing;
* the express-validator chains on POST and PUT, which run every validator
  of a chain and emit one `{param, msg}` entry per failed validator;
* the Sequelize model validation (`allowNull: false` → notNull check,
  the custom `isValidDay` weekday check on `title`, `isDate` on
  `due_date`), which runs when a row is created or saved;
* Sequelize's `instance.update(values)`, which drops `undefined` entries
  from `values` before setting fields, so a field omitted from the PUT
  body keeps its previous value.

The date-format gate (`isISO8601` followed by the `toDate` sanitizer, and
the model-level `isDate` check which always passes on the sanitized value)
is embedded as a single decidable calendar-date predicate over strings of
the shape `YYYY-MM-DD`; the routes only branch on whether the check passes.
-/

namespace TaskApi

/-- A stored task row. Field values are `Option`s because the underlying
SQLite columns can in principle be absent/NULL; the presence invariants are
proved, not assumed. `task_id` abstracts the generated UUID. -/
structure Task where
  task_id : Nat
  title : Option String
  description : Option String
  due_date : Option String
  completed : Option Bool
  deriving DecidableEq

/-- A JSON request body. `none` means the key is absent. `body_task_id`,
`body_createdAt`, `body_updatedAt` model extra client-supplied keys that the
handlers never read (the POST and PUT handlers destructure exactly
`title`, `description`, `due_date`, `completed`). -/
structure Body where
  title : Option String := none
  description : Option String := none
  due_date : Option String := none
  completed : Option Bool := none
  body_task_id : Option Nat := none
  body_createdAt : Option String := none
  body_updatedAt : Option String := none
  deriving DecidableEq

/-- The task store: the `tasks` table in insertion order, plus the
fresh-identifier state embedding UUID generation. -/
structure Store where
  tasks : List Task
  nextId : Nat
  deriving DecidableEq

/-- One `{param, msg}` error entry, as produced both by express-validator
and by the route's mapping of `SequelizeValidationError` items. -/
structure FieldErr where
  param : String
  msg : String
  deriving DecidableEq

/-- A response body: a single task, an array of tasks, a `{message}` object,
an `{errors: [...]}` object, or the empty body of a 204. -/
inductive RespBody where
  | task (t : Task)
  | tasks (ts : List Task)
  | msg (s : String)
  | errs (es : List FieldErr)
  | empty
  deriving DecidableEq

/-- An HTTP response: status code and body. -/
structure Resp where
  status : Nat
  body : RespBody
  deriving DecidableEq

/-- Character is an ASCII digit. -/
def charIsDigit (c : Char) : Bool :=
  ('0' ≤ c) && (c ≤ '9')

/-- Numeric value of two ASCII digit characters. -/
def twoDigits (a b : Char) : Nat :=
  (a.toNat - 48) * 10 + (b.toNat - 48)

/-- The date-format gate of the POST/PUT pipelines: `isISO8601().toDate()`
at the validator layer, after which the model-level `isDate` check always
passes. Embedded as: the string is a calendar date `YYYY-MM-DD` with a
month in 1..12 and a day in 1..31. -/
def isISO8601 (s : String) : Bool :=
  match s.toList with
  | [y1, y2, y3, y4, h1, m1, m2, h2, d1, d2] =>
    (h1 = '-') && (h2 = '-') &&
    charIsDigit y1 && charIsDigit y2 && charIsDigit y3 && charIsDigit y4 &&
    charIsDigit m1 && charIsDigit m2 && charIsDigit d1 && charIsDigit d2 &&
    (1 ≤ twoDigits m1 m2) && (twoDigits m1 m2 ≤ 12) &&
    (1 ≤ twoDigits d1 d2) && (twoDigits d1 d2 ≤ 31)
  | _ => false

/-- ASCII lowercasing of one character, embedding JavaScript's
`toLowerCase` on the alphabet the routes compare against. -/
def toLowerChar (c : Char) : Char :=
  if ('A' ≤ c) && (c ≤ 'Z') then Char.ofNat (c.toNat + 32) else c

/-- Lowercase every character of a string. -/
def lowerString (s : String) : String :=
  String.mk (s.data.map toLowerChar)

/-- The seven weekday names accepted by the model's custom validator. -/
def validDays : List String :=
  ["monday", "tuesday", "wednesday", "thursday", "friday", "saturday", "sunday"]

/-- The custom Sequelize validator on `title`: the lowercased value must be
one of the seven weekday names. -/
def isValidDay (value : String) : Bool :=
  validDays.contains (lowerString value)

/-- express-validator reads a missing field as undefined and feeds validators
the empty string for it. -/
def fieldStr (v : Option String) : String :=
  v.getD ""

/-- The express-validator chains on POST /tasks:
`body('title').notEmpty()` and
`body('due_date').notEmpty().isISO8601().toDate()`. Every validator of a
chain runs and each failure contributes one entry. -/
def postValidationErrors (b : Body) : List FieldErr :=
  (if fieldStr b.title = "" then [⟨"title", "Title is required"⟩] else [])
  ++ (if fieldStr b.due_date = "" then [⟨"due_date", "Due date is required"⟩] else [])
  ++ (if isISO8601 (fieldStr b.due_date) then [] else
        [⟨"due_date", "Invalid due date format"⟩])

/-- The express-validator chains on PUT /tasks/:task_id: the same checks,
but `.optional()` skips a chain entirely when the field is absent. -/
def putValidationErrors (b : Body) : List FieldErr :=
  (match b.title with
   | none => []
   | some t => if t = "" then [⟨"title", "Title is required"⟩] else [])
  ++ (match b.due_date with
      | none => []
      | some d => if isISO8601 d then [] else
          [⟨"due_date", "Invalid due date format"⟩])

/-- Sequelize model validation, run on create and on save: `title` has
`allowNull: false` plus the custom `isValidDay` check (custom validators run
only on non-null values); `due_date` has `allowNull: false` plus `isDate`
(embedded by the same date predicate as the sanitized pipeline);
`description` and `completed` have no checks. -/
def modelValidationErrors (title : Option String) (due_date : Option String) :
    List FieldErr :=
  (match title with
   | none => [⟨"title", "Task.title cannot be null"⟩]
   | some t =>
     if isValidDay t then [] else
       [⟨"title", "Title must be a valid day of the week (Monday, Tuesday, etc.)"⟩])
  ++ (match due_date with
      | none => [⟨"due_date", "Task.due_date cannot be null"⟩]
      | some d =>
        if isISO8601 d then [] else
          [⟨"due_date", "Validation isDate on due_date failed"⟩])

/-- The row built by `Task.create({title, description, due_date, completed})`:
a fresh generated identifier, the four destructured body fields, with the
model defaults `completed = false` (and NULL `description`) applied when the
value is undefined. -/
def builtTask (s : Store) (b : Body) : Task :=
  { task_id := s.nextId
    title := b.title
    description := b.description
    due_date := b.due_date
    completed := some (b.completed.getD false) }

/-- `Task.findByPk(task_id)`. -/
def findTask (s : Store) (i : Nat) : Option Task :=
  s.tasks.find? (fun t => t.task_id == i)

/-- GET /tasks: `Task.findAll()` rendered as a JSON array. -/
def getTasksHandler (s : Store) : Resp :=
  ⟨200, .tasks s.tasks⟩

/-- GET /tasks/:task_id: the row when found, else 404. -/
def getTaskHandler (s : Store) (i : Nat) : Resp :=
  match findTask s i with
  | some t => ⟨200, .task t⟩
  | none => ⟨404, .msg "Task not found"⟩

/-- POST /tasks: express-validator gate, then `Task.create` with the four
destructured body fields; a `SequelizeValidationError` is mapped to a 400
with `{param, msg}` entries; success answers 201 with the created row. -/
def postTasksHandler (s : Store) (b : Body) : Resp × Store :=
  let errs := postValidationErrors b
  if errs ≠ [] then (⟨400, .errs errs⟩, s)
  else
    let merrs := modelValidationErrors b.title b.due_date
    if merrs ≠ [] then (⟨400, .errs merrs⟩, s)
    else
      let t := builtTask s b
      (⟨201, .task t⟩, { tasks := s.tasks ++ [t], nextId := s.nextId + 1 })

/-- `instance.update(values)`: Sequelize drops `undefined` entries from
`values` before setting, so each field omitted from the body keeps the
stored value and each supplied field is replaced. -/
def applyUpdate (t : Task) (b : Body) : Task :=
  { t with
    title := match b.title with | some v => some v | none => t.title
    description := match b.description with | some v => some v | none => t.description
    due_date := match b.due_date with | some v => some v | none => t.due_date
    completed := match b.completed with | some v => some v | none => t.completed }

/-- PUT /tasks/:task_id: express-validator gate (all fields optional), 404
when the id is unknown, then `task.update` with the four destructured body
fields; model validation failure on save rolls up as a 400 and leaves the
table unchanged; success answers 200 with the updated row. -/
def putTaskHandler (s : Store) (i : Nat) (b : Body) : Resp × Store :=
  let errs := putValidationErrors b
  if errs ≠ [] then (⟨400, .errs errs⟩, s)
  else
    match findTask s i with
    | none => (⟨404, .msg "Task not found"⟩, s)
    | some t =>
      let t2 := applyUpdate t b
      let merrs := modelValidationErrors t2.title t2.due_date
      if merrs ≠ [] then (⟨400, .errs merrs⟩, s)
      else
        (⟨200, .task t2⟩,
         { s with tasks := s.tasks.map (fun u => if u.task_id == i then t2 else u) })

/-- DELETE /tasks/:task_id: 404 when the id is unknown, otherwise
`task.destroy()` and a 204 with no content. -/
def deleteTaskHandler (s : Store) (i : Nat) : Resp × Store :=
  match findTask s i with
  | none => (⟨404, .msg "Task not found"⟩, s)
  | some _ =>
    (⟨204, .empty⟩, { s with tasks := s.tasks.filter (fun u => !(u.task_id == i)) })

/-- Whether `needle` occurs as a contiguous run inside the second list. -/
def listContainsSub (needle : List Char) : List Char → Bool
  | [] => needle.isEmpty
  | c :: cs => needle.isPrefixOf (c :: cs) || listContainsSub needle cs

/-- Case-insensitive substring match of a search term against a task title. -/
def titleMatches (term : String) (t : Task) : Bool :=
  listContainsSub (lowerString term).data (lowerString (fieldStr t.title)).data

/-- Modelled from the spec: the search route `GET /task/search?title=` named
by the spec's route table is not present in src/app.js (only this persistent
variant is in the repository snapshot). Per the spec: a missing or empty
`title` query parameter is a bad request answered
`400 {message: "Missing search term (title)"}`; otherwise a 200 with exactly
the tasks whose title contains the term case-insensitively. -/
def searchTasksHandler (s : Store) (titleParam : Option String) : Resp :=
  match titleParam with
  | none => ⟨400, .msg "Missing search term (title)"⟩
  | some term =>
    if term = "" then ⟨400, .msg "Missing search term (title)"⟩
    else ⟨200, .tasks (s.tasks.filter (titleMatches term))⟩

/-- Store well-formedness: every stored identifier is below the freshness
counter (so the next generated identifier is new), and identifiers are
pairwise distinct (the primary-key constraint). -/
def StoreWF (s : Store) : Prop :=
  (∀ t ∈ s.tasks, t.task_id < s.nextId) ∧ (s.tasks.map Task.task_id).Nodup

/-- The empty store. -/
def emptyStore : Store :=
  { tasks := [], nextId := 0 }

/-- A mutating HTTP request against the store. -/
inductive Op where
  | opCreate (b : Body)
  | opUpdate (i : Nat) (b : Body)
  | opDelete (i : Nat)

/-- The store left behind by one mutating request. -/
def stepOp (s : Store) : Op → Store
  | .opCreate b => (postTasksHandler s b).2
  | .opUpdate i b => (putTaskHandler s i b).2
  | .opDelete i => (deleteTaskHandler s i).2

/-- The store left behind by a sequence of mutating requests. -/
def runOps (s : Store) : List Op → Store
  | [] => s
  | op :: rest => runOps (stepOp s op) rest

/-- The field-presence facts of a stored row: `title`, `due_date` and
`completed` all carry values. -/
def TaskPresent (t : Task) : Prop :=
  t.title.isSome ∧ t.due_date.isSome ∧ t.completed.isSome

/-- The four request-body fields the POST handler destructures
(`const {title, description, due_date, completed} = req.body`). -/
def bodyCreateProj (b : Body) :
    Option String × Option String × Option String × Option Bool :=
  (b.title, b.description, b.due_date, b.completed)

/-- Fixture: a stored task resembling the seed row. -/
def tMon : Task :=
  ⟨0, some "monday", some "x", some "2024-01-30", some false⟩

/-- Fixture: a store holding exactly `tMon`. -/
def storeMon : Store :=
  ⟨[tMon], 1⟩

/-- Fixture: a PUT body that only sets the completed flag. -/
def bodyDone : Body :=
  { completed := some true }

/-- Fixture: a POST body with a title but no due date. -/
def bodyMissingDue : Body :=
  { title := some "monday" }

/-- Fixture: a well-formed POST body. -/
def bodyNew : Body :=
  { title := some "Tuesday", due_date := some "2024-02-03" }

/-- Fixture: a POST body whose title is not a weekday name. -/
def bodyShop : Body :=
  { title := some "shop", due_date := some "2024-03-15" }

/-- Fixture: a well-formed POST body carrying extra client-chosen fields. -/
def bodyExtra : Body :=
  { title := some "Wednesday", due_date := some "2024-02-07",
    body_task_id := some 99, body_createdAt := some "2020-01-01" }

/-- Fixture: `bodyExtra` without the extra fields. -/
def bodyPlain : Body :=
  { title := some "Wednesday", due_date := some "2024-02-07" }

/-- A valid date string is not empty (`isISO8601` only accepts ten-character
strings). -/
lemma isISO8601_ne_empty {d : String} (h : isISO8601 d = true) : d ≠ "" := by
  intro e
  subst e
  exact absurd h (by decide)

/-- A weekday-valid title is not empty. -/
lemma isValidDay_ne_empty {t : String} (h : isValidDay t = true) : t ≠ "" := by
  intro e
  subst e
  exact absurd h (by decide)

/-- The POST validator chains pass exactly when the title value is a
non-empty string and the due-date value passes the date-format check. -/
lemma postValidationErrors_eq_nil_iff (b : Body) :
    postValidationErrors b = [] ↔
      fieldStr b.title ≠ "" ∧ isISO8601 (fieldStr b.due_date) = true := by
  unfold postValidationErrors
  by_cases h1 : fieldStr b.title = ""
  · by_cases h2 : fieldStr b.due_date = "" <;>
      by_cases h3 : isISO8601 (fieldStr b.due_date) <;> simp [h1, h2, h3]
  · by_cases h2 : fieldStr b.due_date = ""
    · simp [h1, h2, (show isISO8601 "" = false by decide)]
    · by_cases h3 : isISO8601 (fieldStr b.due_date) <;> simp [h1, h2, h3]

/-- Sequelize model validation passes exactly when the title is present and
a recognized weekday name and the due date is present and a valid date. -/
lemma modelValidationErrors_eq_nil_iff (title due_date : Option String) :
    modelValidationErrors title due_date = [] ↔
      (∃ t, title = some t ∧ isValidDay t = true) ∧
      (∃ d, due_date = some d ∧ isISO8601 d = true) := by
  cases title with
  | none => simp [modelValidationErrors]
  | some t =>
    cases due_date with
    | none => by_cases h : isValidDay t <;> simp [modelValidationErrors, h]
    | some d =>
      by_cases h : isValidDay t <;> by_cases h2 : isISO8601 d <;>
        simp [modelValidationErrors, h, h2]

/-- The successful branch of the POST handler: both validation layers pass,
the built row is appended and returned with a 201. -/
lemma postTasksHandler_success (s : Store) (b : Body)
    (h1 : postValidationErrors b = [])
    (h2 : modelValidationErrors b.title b.due_date = []) :
    postTasksHandler s b =
      (⟨201, .task (builtTask s b)⟩,
       ⟨s.tasks ++ [builtTask s b], s.nextId + 1⟩) := by
  simp [postTasksHandler, h1, h2]

/-- A 201 from the POST handler means both validation layers passed and the
response carries the built row, the store gaining exactly that row. -/
lemma postTasksHandler_201 (s : Store) (b : Body) (t : Task)
    (h : (postTasksHandler s b).1 = ⟨201, .task t⟩) :
    t = builtTask s b ∧
    (postTasksHandler s b).2 = ⟨s.tasks ++ [builtTask s b], s.nextId + 1⟩ := by
  by_cases h1 : postValidationErrors b = []
  · by_cases h2 : modelValidationErrors b.title b.due_date = []
    · rw [postTasksHandler_success s b h1 h2] at h ⊢
      have := (Resp.mk.injEq _ _ _ _).mp h
      have hb := this.2
      cases hb
      exact ⟨rfl, rfl⟩
    · rw [show postTasksHandler s b = (⟨400, .errs (modelValidationErrors b.title b.due_date)⟩, s) by
        simp [postTasksHandler, h1, h2]] at h
      exact absurd ((Resp.mk.injEq _ _ _ _).mp h).1 (by decide)
  · rw [show postTasksHandler s b = (⟨400, .errs (postValidationErrors b)⟩, s) by
      simp [postTasksHandler, h1]] at h
    exact absurd ((Resp.mk.injEq _ _ _ _).mp h).1 (by decide)

/-- In a well-formed store, the freshness counter is not a stored id. -/
lemma findTask_nextId_eq_none (s : Store) (hwf : StoreWF s) :
    findTask s s.nextId = none := by
  refine List.find?_eq_none.mpr ?_
  intro t ht
  have := hwf.1 t ht
  simp only [beq_iff_eq]
  omega

/-- A `.task` body from the POST handler is the built row. -/
lemma postTasksHandler_task_body (s : Store) (b : Body) (t : Task)
    (h : (postTasksHandler s b).1.body = .task t) : t = builtTask s b := by
  by_cases h1 : postValidationErrors b = []
  · by_cases h2 : modelValidationErrors b.title b.due_date = []
    · rw [postTasksHandler_success s b h1 h2] at h
      simp only [RespBody.task.injEq] at h
      exact h.symm
    · simp [postTasksHandler, h1, h2] at h
  · simp [postTasksHandler, h1] at h

/-- `applyUpdate` keeps every present field present. -/
lemma applyUpdate_presence (t : Task) (b : Body) (h : TaskPresent t) :
    TaskPresent (applyUpdate t b) := by
  obtain ⟨h1, h2, h3⟩ := h
  refine ⟨?_, ?_, ?_⟩
  · cases hb : b.title <;> simp [applyUpdate, hb, h1]
  · cases hb : b.due_date <;> simp [applyUpdate, hb, h2]
  · cases hb : b.completed <;> simp [applyUpdate, hb, h3]

/-- Every mutating request preserves field presence of all stored rows. -/
lemma stepOp_presence (s : Store) (h : ∀ t ∈ s.tasks, TaskPresent t) (op : Op) :
    ∀ t ∈ (stepOp s op).tasks, TaskPresent t := by
  cases op with
  | opCreate b =>
    by_cases h1 : postValidationErrors b = []
    · by_cases h2 : modelValidationErrors b.title b.due_date = []
      · rw [show stepOp s (.opCreate b) = (postTasksHandler s b).2 from rfl,
          postTasksHandler_success s b h1 h2]
        intro t htm
        rcases List.mem_append.mp htm with hm | hm
        · exact h t hm
        · simp only [List.mem_singleton] at hm
          subst hm
          obtain ⟨⟨tt, htt, _⟩, ⟨dd, hdd, _⟩⟩ :=
            (modelValidationErrors_eq_nil_iff _ _).mp h2
          exact ⟨by simp [builtTask, htt], by simp [builtTask, hdd],
            by simp [builtTask]⟩
      · simpa [stepOp, postTasksHandler, h1, h2] using h
    · simpa [stepOp, postTasksHandler, h1] using h
  | opUpdate i b =>
    by_cases h1 : putValidationErrors b = []
    · cases hf : findTask s i with
      | none => simpa [stepOp, putTaskHandler, h1, hf] using h
      | some t0 =>
        by_cases h2 :
            modelValidationErrors (applyUpdate t0 b).title (applyUpdate t0 b).due_date = []
        · have ht0 : TaskPresent t0 := h t0 (List.mem_of_find?_eq_some hf)
          simp only [stepOp, putTaskHandler, h1, hf, h2, ne_eq,
            not_true_eq_false, if_false, reduceIte]
          intro t htm
          rcases List.mem_map.mp htm with ⟨u, hu, he⟩
          by_cases hc : u.task_id == i
          · simp only [hc, if_true, reduceIte] at he
            subst he
            exact applyUpdate_presence t0 b ht0
          · simp only [hc] at he
            subst he
            exact h u hu
        · simpa [stepOp, putTaskHandler, h1, hf, h2] using h
    · simpa [stepOp, putTaskHandler, h1] using h
  | opDelete i =>
    cases hf : findTask s i with
    | none => simpa [stepOp, deleteTaskHandler, hf] using h
    | some t0 =>
      simp only [stepOp, deleteTaskHandler, hf]
      intro t htm
      exact h t (List.mem_of_mem_filter htm)

/-- Field presence of all stored rows is preserved by every request
sequence. -/
lemma runOps_presence (ops : List Op) :
    ∀ s : Store, (∀ t ∈ s.tasks, TaskPresent t) →
      ∀ t ∈ (runOps s ops).tasks, TaskPresent t := by
  induction ops with
  | nil => intro s h; exact h
  | cons op rest ih => intro s h; exact ih (stepOp s op) (stepOp_presence s h op)

/-- C1, counterexample: on the empty store, DELETE /tasks/0 does not answer
204 with an empty body; it answers 404 `{message: "Task not found"}`, and
the claimed always-success contract is false. -/
theorem C1_counterexample :
    (deleteTaskHandler emptyStore 0).1.status = 404 ∧
    (deleteTaskHandler emptyStore 0).1 ≠ ⟨204, .empty⟩ ∧
    (deleteTaskHandler emptyStore 0).1.body = .msg "Task not found" := by
  refine ⟨rfl, ?_, rfl⟩
  decide

/-- C1, amended: DELETE /tasks/:task_id answers 204 with an empty body when
the task exists; on a non-existent or already-deleted id it answers 404
`{message: "Task not found"}` and leaves the store unchanged — the same
not-found reporting as GET, with no success asymmetry. -/
theorem C1_delete_not_found_reporting (s : Store) (i : Nat) :
    (findTask s i = none →
      deleteTaskHandler s i = (⟨404, .msg "Task not found"⟩, s) ∧
      getTaskHandler s i = ⟨404, .msg "Task not found"⟩) ∧
    (∀ t, findTask s i = some t → (deleteTaskHandler s i).1 = ⟨204, .empty⟩) := by
  constructor
  · intro hf
    exact ⟨by simp [deleteTaskHandler, hf], by simp [getTaskHandler, hf]⟩
  · intro t hf
    simp [deleteTaskHandler, hf]

/-- C1, witness: the amended statement at the empty store (unknown id) and
at a one-task store (existing id). -/
theorem C1_witness :
    deleteTaskHandler emptyStore 0 = (⟨404, .msg "Task not found"⟩, emptyStore) ∧
    getTaskHandler emptyStore 0 = ⟨404, .msg "Task not found"⟩ ∧
    (deleteTaskHandler storeMon 0).1 = ⟨204, .empty⟩ :=
  ⟨((C1_delete_not_found_reporting emptyStore 0).1 rfl).1,
   ((C1_delete_not_found_reporting emptyStore 0).1 rfl).2,
   (C1_delete_not_found_reporting storeMon 0).2 tMon rfl⟩

/-- C2: for every store and non-empty term, the search operation answers
200 with exactly the subset of the listed tasks whose title contains the
term case-insensitively, and a request with no title parameter answers 400
`{message: "Missing search term (title)"}`. (The search route is modelled
from the spec; see `searchTasksHandler`.) -/
theorem C2_search_contract (s : Store) (term : String) (h : term ≠ "") :
    searchTasksHandler s (some term) =
      ⟨200, .tasks (s.tasks.filter (titleMatches term))⟩ ∧
    (∀ t, t ∈ s.tasks.filter (titleMatches term) ↔
      t ∈ s.tasks ∧ titleMatches term t = true) ∧
    getTasksHandler s = ⟨200, .tasks s.tasks⟩ ∧
    searchTasksHandler s none = ⟨400, .msg "Missing search term (title)"⟩ := by
  refine ⟨by simp [searchTasksHandler, h], ?_, rfl, rfl⟩
  intro t
  exact List.mem_filter

/-- C2, witness: the search contract at a concrete store and term. -/
theorem C2_witness :
    searchTasksHandler storeMon (some "MON") =
      ⟨200, .tasks (storeMon.tasks.filter (titleMatches "MON"))⟩ ∧
    searchTasksHandler storeMon none =
      ⟨400, .msg "Missing search term (title)"⟩ :=
  ⟨(C2_search_contract storeMon "MON" (by decide)).1,
   (C2_search_contract storeMon "MON" (by decide)).2.2.2⟩

/-- C7: PUT on an id not in the store, with a body passing the request
validators, answers 404 `{message: "Task not found"}` and leaves the store
unchanged — in particular no record is created. -/
theorem C7_update_unknown_id (s : Store) (i : Nat) (b : Body)
    (hv : putValidationErrors b = []) (hf : findTask s i = none) :
    putTaskHandler s i b = (⟨404, .msg "Task not found"⟩, s) := by
  simp [putTaskHandler, hv, hf]

/-- C7, witness: updating an unknown id on the empty store. -/
theorem C7_witness :
    putTaskHandler emptyStore 5 bodyDone = (⟨404, .msg "Task not found"⟩, emptyStore) :=
  C7_update_unknown_id emptyStore 5 bodyDone rfl rfl

/-- C3, counterexample: updating the one stored task with a body that only
supplies `completed` answers 200, but the omitted `title`, `description`
and `due_date` keep their stored values instead of becoming absent/null, so
the claimed full-replace semantics is false. -/
theorem C3_counterexample :
    (putTaskHandler storeMon 0 bodyDone).1.status = 200 ∧
    (putTaskHandler storeMon 0 bodyDone).1.body =
      .task ⟨0, some "monday", some "x", some "2024-01-30", some true⟩ ∧
    (putTaskHandler storeMon 0 bodyDone).1.body ≠
      .task ⟨0, none, none, none, some true⟩ := by
  refine ⟨rfl, rfl, ?_⟩
  decide

/-- C3, amended: for every existing task and valid PUT body, update has
merge semantics: each supplied field is replaced with the supplied value,
each omitted field retains its previous value (Sequelize drops undefined
values from `update`), and the updated record is returned with 200. -/
theorem C3_update_merge_semantics (s : Store) (i : Nat) (b : Body) (t : Task)
    (hv : putValidationErrors b = []) (hf : findTask s i = some t)
    (hm : modelValidationErrors (applyUpdate t b).title (applyUpdate t b).due_date = []) :
    putTaskHandler s i b =
      (⟨200, .task (applyUpdate t b)⟩,
       { s with tasks := s.tasks.map (fun u => if u.task_id == i then applyUpdate t b else u) }) ∧
    (∀ v, b.title = some v → (applyUpdate t b).title = some v) ∧
    (b.title = none → (applyUpdate t b).title = t.title) ∧
    (∀ v, b.description = some v → (applyUpdate t b).description = some v) ∧
    (b.description = none → (applyUpdate t b).description = t.description) ∧
    (∀ v, b.due_date = some v → (applyUpdate t b).due_date = some v) ∧
    (b.due_date = none → (applyUpdate t b).due_date = t.due_date) ∧
    (∀ v, b.completed = some v → (applyUpdate t b).completed = some v) ∧
    (b.completed = none → (applyUpdate t b).completed = t.completed) := by
  refine ⟨by simp [putTaskHandler, hv, hf, hm], ?_, ?_, ?_, ?_, ?_, ?_, ?_, ?_⟩
  · intro v h0; simp [applyUpdate, h0]
  · intro h0; simp [applyUpdate, h0]
  · intro v h0; simp [applyUpdate, h0]
  · intro h0; simp [applyUpdate, h0]
  · intro v h0; simp [applyUpdate, h0]
  · intro h0; simp [applyUpdate, h0]
  · intro v h0; simp [applyUpdate, h0]
  · intro h0; simp [applyUpdate, h0]

/-- C3, witness: the merge-update contract at the one-task store with a
body supplying only the completed flag. -/
theorem C3_witness :
    putTaskHandler storeMon 0 bodyDone =
      (⟨200, .task (applyUpdate tMon bodyDone)⟩,
       { storeMon with
         tasks := storeMon.tasks.map
           (fun u => if u.task_id == 0 then applyUpdate tMon bodyDone else u) }) ∧
    (applyUpdate tMon bodyDone).description = tMon.description :=
  ⟨(C3_update_merge_semantics storeMon 0 bodyDone tMon rfl rfl (by decide)).1,
   (C3_update_merge_semantics storeMon 0 bodyDone tMon rfl rfl (by decide)).2.2.2.2.1 rfl⟩

/-- C4, counterexample: a POST whose body has a title but no due date
answers 400 and leaves the store untouched, but it carries two error
entries for the single failed field `due_date` (the chain's `notEmpty` and
`isISO8601` both fail), so "one error entry per failed field" is false. -/
theorem C4_counterexample :
    (postTasksHandler emptyStore bodyMissingDue).1.status = 400 ∧
    (postTasksHandler emptyStore bodyMissingDue).2 = emptyStore ∧
    (postTasksHandler emptyStore bodyMissingDue).1.body =
      .errs [⟨"due_date", "Due date is required"⟩,
             ⟨"due_date", "Invalid due date format"⟩] := by
  refine ⟨rfl, rfl, rfl⟩

/-- C4, amended: a POST whose body is missing `title` or missing
`due_date` (or whose `due_date` fails the date-format check) answers 400
with at least one error entry per failed field (one entry per failed
validator of a chain), and the store is left exactly as it was — no partial
insert. -/
theorem C4_invalid_create_rejected (s : Store) (b : Body)
    (h : b.title = none ∨ b.due_date = none ∨
         (∃ d, b.due_date = some d ∧ isISO8601 d = false)) :
    (postTasksHandler s b).1.status = 400 ∧
    (postTasksHandler s b).2 = s ∧
    (postTasksHandler s b).1.body = .errs (postValidationErrors b) ∧
    (b.title = none →
      (⟨"title", "Title is required"⟩ : FieldErr) ∈ postValidationErrors b) ∧
    ((b.due_date = none ∨ ∃ d, b.due_date = some d ∧ isISO8601 d = false) →
      ∃ e ∈ postValidationErrors b, e.param = "due_date") := by
  have hne : postValidationErrors b ≠ [] := by
    intro hnil
    obtain ⟨ht, hdd⟩ := (postValidationErrors_eq_nil_iff b).mp hnil
    rcases h with h | h | ⟨d, hd, hbad⟩
    · exact ht (by simp [fieldStr, h])
    · rw [show fieldStr b.due_date = "" by simp [fieldStr, h]] at hdd
      exact absurd hdd (by decide)
    · rw [show fieldStr b.due_date = d by simp [fieldStr, hd]] at hdd
      rw [hdd] at hbad
      exact absurd hbad (by decide)
  have h400 : postTasksHandler s b = (⟨400, .errs (postValidationErrors b)⟩, s) := by
    simp [postTasksHandler, hne]
  refine ⟨by rw [h400], by rw [h400], by rw [h400], ?_, ?_⟩
  · intro h0
    simp [postValidationErrors, fieldStr, h0]
  · intro h0
    rcases h0 with h0 | ⟨d, hd, hbad⟩
    · refine ⟨⟨"due_date", "Due date is required"⟩, ?_, rfl⟩
      simp [postValidationErrors, fieldStr, h0]
    · refine ⟨⟨"due_date", "Invalid due date format"⟩, ?_, rfl⟩
      simp [postValidationErrors, fieldStr, hd, hbad]

/-- C4, witness: the amended statement at the empty store and a body with
no due date. -/
theorem C4_witness :
    (postTasksHandler emptyStore bodyMissingDue).1.status = 400 ∧
    (postTasksHandler emptyStore bodyMissingDue).2 = emptyStore ∧
    (postTasksHandler emptyStore bodyMissingDue).1.body =
      .errs (postValidationErrors bodyMissingDue) :=
  ⟨(C4_invalid_create_rejected emptyStore bodyMissingDue (Or.inr (Or.inl rfl))).1,
   (C4_invalid_create_rejected emptyStore bodyMissingDue (Or.inr (Or.inl rfl))).2.1,
   (C4_invalid_create_rejected emptyStore bodyMissingDue (Or.inr (Or.inl rfl))).2.2.1⟩

/-- C5: a POST whose body carries a validation-passing title (a weekday
name, hence non-empty) and a well-formed due date creates a task with a
fresh identifier distinct from every stored one, defaults `completed` to
false and `description` to absent when not supplied, appends the row to the
collection, answers 201 with the created record, and preserves store
well-formedness (identifier uniqueness). -/
theorem C5_create_success (s : Store) (b : Body) (title d : String)
    (ht : b.title = some title) (hw : isValidDay title = true)
    (hd : b.due_date = some d) (hdv : isISO8601 d = true)
    (hwf : StoreWF s) :
    postTasksHandler s b =
      (⟨201, .task (builtTask s b)⟩,
       ⟨s.tasks ++ [builtTask s b], s.nextId + 1⟩) ∧
    (builtTask s b).task_id ∉ s.tasks.map Task.task_id ∧
    (b.completed = none → (builtTask s b).completed = some false) ∧
    (b.description = none → (builtTask s b).description = none) ∧
    StoreWF (postTasksHandler s b).2 := by
  have h1 : postValidationErrors b = [] := by
    refine (postValidationErrors_eq_nil_iff b).mpr ⟨?_, ?_⟩
    · rw [show fieldStr b.title = title by simp [fieldStr, ht]]
      exact isValidDay_ne_empty hw
    · rw [show fieldStr b.due_date = d by simp [fieldStr, hd]]
      exact hdv
  have h2 : modelValidationErrors b.title b.due_date = [] :=
    (modelValidationErrors_eq_nil_iff _ _).mpr ⟨⟨title, ht, hw⟩, ⟨d, hd, hdv⟩⟩
  have hpost := postTasksHandler_success s b h1 h2
  refine ⟨hpost, ?_, fun h0 => by simp [builtTask, h0], fun h0 => by simp [builtTask, h0], ?_⟩
  · intro hmem
    obtain ⟨t, htm, hid⟩ := List.mem_map.mp hmem
    have := hwf.1 t htm
    have hid2 : t.task_id = s.nextId := hid
    omega
  · rw [hpost]
    constructor
    · intro t htm
      rcases List.mem_append.mp htm with hm | hm
      · have := hwf.1 t hm
        simp only []
        omega
      · simp only [List.mem_singleton] at hm
        subst hm
        show s.nextId < s.nextId + 1
        omega
    · show ((s.tasks ++ [builtTask s b]).map Task.task_id).Nodup
      rw [List.map_append]
      refine List.nodup_append.mpr ⟨hwf.2, List.nodup_singleton _, ?_⟩
      intro a ha hb
      simp only [List.map_cons, List.map_nil, List.mem_singleton] at hb
      subst hb
      obtain ⟨t, htm, hid⟩ := List.mem_map.mp ha
      have := hwf.1 t htm
      rw [show (builtTask s b).task_id = s.nextId from rfl] at hid
      omega

/-- The concrete one-task store is well-formed. -/
lemma storeMon_wf : StoreWF storeMon := by
  unfold StoreWF
  refine ⟨?_, ?_⟩ <;> decide

/-- C5, witness: creating a well-formed task on a concrete well-formed
store. -/
theorem C5_witness :
    postTasksHandler storeMon bodyNew =
      (⟨201, .task (builtTask storeMon bodyNew)⟩,
       ⟨storeMon.tasks ++ [builtTask storeMon bodyNew], storeMon.nextId + 1⟩) ∧
    (builtTask storeMon bodyNew).completed = some false :=
  ⟨(C5_create_success storeMon bodyNew "Tuesday" "2024-02-03" rfl (by decide) rfl
      (by decide) storeMon_wf).1,
   (C5_create_success storeMon bodyNew "Tuesday" "2024-02-03" rfl (by decide) rfl
      (by decide) storeMon_wf).2.2.1 rfl⟩

/-- C6: after a successful create (201 carrying the created task), an
immediate GET on the returned identifier answers 200 with a task equal to
the one the create returned. -/
theorem C6_create_then_get (s : Store) (b : Body) (t : Task)
    (hwf : StoreWF s) (h : (postTasksHandler s b).1 = ⟨201, .task t⟩) :
    getTaskHandler (postTasksHandler s b).2 t.task_id = ⟨200, .task t⟩ := by
  obtain ⟨ht, h2⟩ := postTasksHandler_201 s b t h
  subst ht
  rw [h2]
  have hid : (builtTask s b).task_id = s.nextId := rfl
  show getTaskHandler ⟨s.tasks ++ [builtTask s b], s.nextId + 1⟩ (builtTask s b).task_id =
    ⟨200, .task (builtTask s b)⟩
  rw [hid]
  unfold getTaskHandler findTask
  rw [List.find?_append]
  have hn : List.find? (fun u => u.task_id == s.nextId) s.tasks = none :=
    findTask_nextId_eq_none s hwf
  rw [hn]
  have hone : List.find? (fun u => u.task_id == s.nextId) [builtTask s b] =
      some (builtTask s b) :=
    List.find?_cons_of_pos _ (by simp [builtTask])
  rw [hone]
  rfl

/-- C6, witness: create-then-get on a concrete store. -/
theorem C6_witness :
    getTaskHandler (postTasksHandler storeMon bodyNew).2
      (builtTask storeMon bodyNew).task_id =
      ⟨200, .task (builtTask storeMon bodyNew)⟩ :=
  C6_create_then_get storeMon bodyNew (builtTask storeMon bodyNew) storeMon_wf (by decide)

/-- C8: after any sequence of create/update/delete requests from the empty
store, every stored task has `title` and `due_date` (and `completed`)
present; creation defaults `completed` to false and `description` to
absent when not supplied, and an update that does not supply them leaves
them unchanged — so both hold their defaults when never explicitly set. -/
theorem C8_presence_invariant (ops : List Op) :
    (∀ t ∈ (runOps emptyStore ops).tasks, TaskPresent t) ∧
    (∀ s b, b.completed = none → b.description = none →
      (builtTask s b).completed = some false ∧ (builtTask s b).description = none) ∧
    (∀ t b, b.completed = none → (applyUpdate t b).completed = t.completed) ∧
    (∀ t b, b.description = none → (applyUpdate t b).description = t.description) := by
  refine ⟨runOps_presence ops emptyStore ?_, ?_, ?_, ?_⟩
  · intro t htm
    simp [emptyStore] at htm
  · intro s b hc hdd
    exact ⟨by simp [builtTask, hc], by simp [builtTask, hdd]⟩
  · intro t b hc
    simp [applyUpdate, hc]
  · intro t b hdd
    simp [applyUpdate, hdd]

/-- C8, witness: the invariant at a concrete two-request run, plus the
defaults at a concrete body and the update-preservation at a concrete
task. -/
theorem C8_witness :
    TaskPresent ⟨0, some "Tuesday", none, some "2024-02-03", some true⟩ ∧
    (builtTask emptyStore bodyNew).completed = some false ∧
    (applyUpdate tMon bodyDone).description = tMon.description :=
  ⟨(C8_presence_invariant [Op.opCreate bodyNew, Op.opUpdate 0 bodyDone]).1
      ⟨0, some "Tuesday", none, some "2024-02-03", some true⟩ (by decide),
   ((C8_presence_invariant []).2.1 emptyStore bodyNew rfl rfl).1,
   (C8_presence_invariant []).2.2.2 tMon bodyDone rfl⟩

/-- C9: in the constrained variant, constructing a task fails model
validation exactly when the title is empty (absent or the empty string),
the title is not one of the seven weekday names compared
case-insensitively, or the due date is absent or does not parse as a date —
and no other construction-time check exists; a construction failure
reaching the POST route surfaces as a 400 carrying the field-level
entries. -/
theorem C9_construction_validation (title dd : Option String) :
    (modelValidationErrors title dd ≠ [] ↔
      (title = none ∨ (∃ t, title = some t ∧ (t = "" ∨ isValidDay t = false)) ∨
       dd = none ∨ (∃ d, dd = some d ∧ isISO8601 d = false))) ∧
    (∀ s b, postValidationErrors b = [] →
      modelValidationErrors b.title b.due_date ≠ [] →
      postTasksHandler s b =
        (⟨400, .errs (modelValidationErrors b.title b.due_date)⟩, s)) := by
  constructor
  · cases title with
    | none => simp [modelValidationErrors]
    | some t =>
      cases dd with
      | none => by_cases h : isValidDay t <;> simp [modelValidationErrors, h]
      | some d =>
        by_cases h : isValidDay t <;> by_cases h2 : isISO8601 d <;>
          simp [modelValidationErrors, h, h2, isValidDay_ne_empty, fun e => (e : t = "") ▸ h]
  · intro s b h1 h2
    simp [postTasksHandler, h1, h2]

/-- C9, witness: a non-weekday title passes the request validators but
fails model validation and surfaces as a 400 with field-level entries. -/
theorem C9_witness :
    postTasksHandler emptyStore bodyShop =
      (⟨400, .errs (modelValidationErrors bodyShop.title bodyShop.due_date)⟩,
       emptyStore) :=
  (C9_construction_validation bodyShop.title bodyShop.due_date).2 emptyStore bodyShop
    (by decide) (by decide)

/-- C10: the POST handler reads only the `title`, `description`, `due_date`
and `completed` fields of the request body — two requests agreeing on those
four fields behave identically on every store, whatever extra fields (a
client-chosen task_id, createdAt, updatedAt) they carry — and any created
record's identifier is the server-generated fresh one, never a
client-supplied value. -/
theorem C10_create_reads_only_declared_fields (s : Store) (b1 b2 : Body)
    (h : bodyCreateProj b1 = bodyCreateProj b2) :
    postTasksHandler s b1 = postTasksHandler s b2 ∧
    (∀ t, (postTasksHandler s b1).1.body = .task t → t.task_id = s.nextId) := by
  obtain ⟨t1, d1, dd1, c1, x1, y1, z1⟩ := b1
  obtain ⟨t2, d2, dd2, c2, x2, y2, z2⟩ := b2
  simp only [bodyCreateProj, Prod.mk.injEq] at h
  obtain ⟨rfl, rfl, rfl, rfl⟩ := h
  constructor
  · rfl
  · intro t ht
    rw [postTasksHandler_task_body s _ t ht]
    rfl

/-- C10, witness: a body carrying a client-chosen task_id and createdAt
behaves exactly like the body without them, and the created identifier is
the server counter. -/
theorem C10_witness :
    postTasksHandler emptyStore bodyExtra = postTasksHandler emptyStore bodyPlain ∧
    (builtTask emptyStore bodyExtra).task_id = emptyStore.nextId :=
  ⟨(C10_create_reads_only_declared_fields emptyStore bodyExtra bodyPlain rfl).1,
   (C10_create_reads_only_declared_fields emptyStore bodyExtra bodyPlain rfl).2
     (builtTask emptyStore bodyExtra) (by decide)⟩

end TaskApi
